import Mathlib

/-!
Shallow embedding of the housekeeping record store and retrieval engine of
`Services/source/housekeeping/housekeeping_service.c`.

Machine integers are modelled as `Nat` with explicit reductions modulo
`2^16` (for `uint16_t`) and `2^32` (for `uint32_t`) wherever the C code can
overflow or wrap.  Array subscripts computed in C `int` arithmetic (after the
usual integer promotions) are modelled as `Int`, so that a negative subscript
is visible as a negative index instead of silently wrapping.  The mutable
globals `MAX_FILES`, `current_file`, `timestamps`, `hk_timestamp_array_size`
and the per-slot files on disk form the explicit state `HKState`; the
FreeRTOS mutex is modelled by a take/give counter `lockDepth`.  External
effects (time, peripheral telemetry, malloc/realloc/fopen/remove/csp_send
outcomes, host endianness, the external per-subsystem endianness converters)
are supplied by an environment value `Env`.
-/

namespace HKService

/-- Wrap-around `uint32_t` subtraction `a - b`, as used by the C code's
unsigned timestamp-difference comparisons. -/
def sub32 (a b : Nat) : Nat :=
  (a % 4294967296 + (4294967296 - b % 4294967296)) % 4294967296

/-- Byte swap of a 16-bit value. -/
def bswap16 (x : Nat) : Nat := x % 256 * 256 + x / 256 % 256

/-- Byte swap of a 32-bit value. -/
def bswap32 (x : Nat) : Nat :=
  x % 256 * 16777216 + x / 256 % 256 * 65536 + x / 65536 % 256 * 256 + x / 16777216 % 256

/-- Model of `csp_hton16`: identity on a big-endian host, byte swap on a little-endian
host. -/
def csp_hton16 (bigEndian : Bool) (x : Nat) : Nat :=
  if bigEndian then x % 65536 else bswap16 x

/-- Model of `csp_hton32`: identity on a big-endian host, byte swap on a little-endian
host. -/
def csp_hton32 (bigEndian : Bool) (x : Nat) : Nat :=
  if bigEndian then x % 4294967296 else bswap32 x

/-- The `Result` enum of the service layer.  Its numeric values live in a
header that is not under `src/`.  Modelled from the spec: `write`/`load`/
`resize` report plain success or failure, and every call site in the source
treats the failing value as C-false (`if(!write_hk_to_file(...))` is the
branch that logs the corresponding failure message), so `FAILURE` is the
falsy value and `SUCCESS` the truthy one. -/
inductive Result where
  | FAILURE
  | SUCCESS
deriving DecidableEq

/-- One persisted housekeeping record (`All_systems_housekeeping`): the
time/order header plus one opaque blob per subsystem, each blob abstracted
as a `Nat`. -/
structure Record where
  timestamp : Nat
  dataPosition : Nat
  athena : Nat
  eps : Nat
  uhf : Nat
  sband : Nat
deriving DecidableEq

/-- The mutable state of the service: the globals of
`housekeeping_service.c` plus the per-slot files on disk.

`tsMem` is the memory the `timestamps` pointer points into, as a total
function on `Int` indices so that out-of-bounds subscripts (negative or past
the allocation) read some unspecified cell instead of being undefined;
`tsNull` records whether the pointer is still `NULL`.  `files n` is the
content of file `tempHKdata<n>.TMP`, or `none` when that file does not
exist.  `lockDepth` counts `xSemaphoreTake`s minus `xSemaphoreGive`s on
`f_count_lock`. -/
structure HKState where
  maxFiles : Nat
  currentFile : Nat
  tsNull : Bool
  tsMem : Int → Nat
  tsSize : Nat
  files : Nat → Option Record
  lockDepth : Nat

/-- The environment of one operation: clock, telemetry payloads, outcomes of
the fallible external calls, host byte order, and the external per-subsystem
endianness converters (their bodies are not part of this core). -/
structure Env where
  now : Nat
  athena : Nat
  eps : Nat
  uhf : Nat
  sband : Nat
  fnMallocOk : Bool
  writeOk : Bool
  arrayOk : Bool
  sendOk : Bool
  removeOk : Nat → Bool
  bigEndian : Bool
  athenaConv : Nat → Nat
  epsConv : Nat → Nat
  uhfConv : Nat → Nat
  sbandConv : Nat → Nat

/-- The state at service start: `MAX_FILES = 500`, `current_file = 1`,
`timestamps == NULL`, `hk_timestamp_array_size = 0`, no files on disk, lock
free.  Uninitialised timestamp memory is taken to be all `0` here; states
with other memory contents are built explicitly where needed. -/
def initState : HKState where
  maxFiles := 500
  currentFile := 1
  tsNull := true
  tsMem := fun _ => 0
  tsSize := 0
  files := fun _ => none
  lockDepth := 0

/-- The leftmost-binary-search loop of `get_file_id_from_timestamp`
(lines 83-90).  `fuel` bounds the iteration count (the interval shrinks
strictly each pass, so any `fuel ≥ right - left` is enough and the starting
call below always supplies it); the returned list records, in order, each
`Int` index used to subscript `timestamps` (the C expression
`middle - (current_file - 1)` is computed in promoted `int` arithmetic and
can be negative). -/
def gfif_loop (mem : Int → Nat) (cf : Nat) (timestamp : Nat) :
    Nat → Nat → Nat → List Int → Nat × List Int
  | 0, left, _right, reads => (left, reads)
  | fuel + 1, left, right, reads =>
    if left < right then
      let middle := (left + right) / 2
      let idx : Int := (middle : Int) - ((cf : Int) - 1)
      if mem idx % 4294967296 < timestamp % 4294967296 then
        gfif_loop mem cf timestamp fuel (middle + 1) right (reads ++ [idx])
      else
        gfif_loop mem cf timestamp fuel left middle (reads ++ [idx])
    else (left, reads)

/-- The post-search disambiguation of `get_file_id_from_timestamp`
(lines 91-113): `true_position = left - (current_file - 1)` is stored into a
`uint16_t` (hence the reduction modulo `2^16` of the promoted-`int` value),
then the boundary slot and its neighbour are compared against the target
with `uint32_t` wrap-around subtraction and a threshold of 15 seconds.
Each subscript of `timestamps` is appended to the read list (one entry per
C condition that subscripts it). -/
def gfif_after (mem : Int → Nat) (size : Nat) (cf : Nat) (timestamp : Nat)
    (p : Nat × List Int) : Nat × List Int :=
  let left := p.1
  let tp : Nat := (((left : Int) - ((cf : Int) - 1)) % 65536).toNat
  if tp > 1 then
    if sub32 timestamp (mem ((tp : Int) - 1)) ≤ 15 then
      (tp - 1, p.2 ++ [(tp : Int) - 1])
    else if tp ≠ size then
      if sub32 (mem (tp : Int)) timestamp ≤ 15 then
        (tp, p.2 ++ [(tp : Int) - 1, (tp : Int)])
      else (0, p.2 ++ [(tp : Int) - 1, (tp : Int)])
    else
      if timestamp % 4294967296 > mem (tp : Int) % 4294967296 ∧
          sub32 timestamp (mem (tp : Int)) ≤ 15 then
        (tp, p.2 ++ [(tp : Int) - 1, (tp : Int)])
      else if sub32 (mem (tp : Int)) timestamp ≤ 15 then
        (tp, p.2 ++ [(tp : Int) - 1, (tp : Int)])
      else (0, p.2 ++ [(tp : Int) - 1, (tp : Int)])
  else
    if sub32 (mem (tp : Int)) timestamp ≤ 15 then (tp, p.2 ++ [(tp : Int)])
    else (0, p.2 ++ [(tp : Int)])

/-- Embedding of `get_file_id_from_timestamp` (lines 61-116), instrumented: the first
component is the returned file id, the second lists every `Int` index used
to subscript `timestamps`, in evaluation order.  The two window set-ups
mirror the source: not-yet-wrapped (`timestamps[current_file] == 0`) uses
`left = 1`, `right = current_file - 1`; wrapped uses `left = current_file`,
`right = left + hk_timestamp_array_size - 1`, both `right`s being stored
into `uint16_t` variables. -/
def get_file_id_with_reads (st : HKState) (timestamp : Nat) : Nat × List Int :=
  if st.tsNull then (0, [])
  else if st.tsMem (st.currentFile : Int) % 4294967296 = 0 then
    if st.currentFile = 1 then (0, [(st.currentFile : Int)])
    else
      let left : Nat := 1
      let right : Nat := (((st.currentFile : Int) - 1) % 65536).toNat
      gfif_after st.tsMem st.tsSize st.currentFile timestamp
        (gfif_loop st.tsMem st.currentFile timestamp (right - left + 1) left right
          [(st.currentFile : Int)])
  else
    let left : Nat := st.currentFile
    let right : Nat := (((st.currentFile : Int) + (st.tsSize : Int) - 1) % 65536).toNat
    gfif_after st.tsMem st.tsSize st.currentFile timestamp
      (gfif_loop st.tsMem st.currentFile timestamp (right - left + 1) left right
        [(st.currentFile : Int)])

/-- Result component of `get_file_id_with_reads`: the embedding of
`get_file_id_from_timestamp` proper. -/
def get_file_id_from_timestamp (st : HKState) (timestamp : Nat) : Nat :=
  (get_file_id_with_reads st timestamp).1

/-- Embedding of `dynamic_timestamp_array_handler` (lines 126-148).  `num_items = 0`
frees the array and zeroes the size (the C code frees without nulling the
pointer, so `tsNull` is left as it was); otherwise, when the size changes,
realloc either fails (`arrayOk = false`, nothing changed) or succeeds,
preserving old contents and zero-initialising entries
`hk_timestamp_array_size + 1 .. num_items`. -/
def dynamic_timestamp_array_handler (st : HKState) (arrayOk : Bool) (num_items : Nat) :
    Result × HKState :=
  if num_items = 0 then
    (Result.SUCCESS, { st with tsSize := 0 })
  else if num_items ≠ st.tsSize then
    if arrayOk then
      (Result.SUCCESS,
        { st with
          tsNull := false
          tsMem := fun i =>
            if (st.tsSize : Int) + 1 ≤ i ∧ i ≤ (num_items : Int) then 0 else st.tsMem i
          tsSize := num_items })
    else (Result.FAILURE, st)
  else (Result.SUCCESS, st)

/-- Embedding of `populate_and_store_hk_data` (lines 299-346).  Takes the lock, stamps
the snapshot with the clock and the write cursor, persists it under the
cursor's filename, then (on success) resizes the timestamp array to
`MAX_FILES`, records the timestamp at the cursor when that succeeded,
advances and wraps the cursor, and gives the lock back.  The two failure
returns (filename malloc failure, file-write failure) return directly,
exactly as the source does — in particular without giving the lock back. -/
def populate_and_store_hk_data (st : HKState) (env : Env) : Result × HKState :=
  let ts := env.now % 4294967296
  let stL : HKState := { st with lockDepth := st.lockDepth + 1 }
  if env.fnMallocOk then
    if env.writeOk then
      let rec0 : Record :=
        { timestamp := ts, dataPosition := stL.currentFile % 65536,
          athena := env.athena, eps := env.eps, uhf := env.uhf, sband := env.sband }
      let stW : HKState :=
        { stL with files := fun n => if n = stL.currentFile then some rec0 else stL.files n }
      let h := dynamic_timestamp_array_handler stW env.arrayOk stW.maxFiles
      let stA : HKState :=
        if h.1 = Result.SUCCESS then
          { h.2 with
            tsMem := fun i => if i = (stW.currentFile : Int) then ts else h.2.tsMem i }
        else h.2
      let cf1 := (stA.currentFile + 1) % 65536
      let cf2 := if cf1 > stA.maxFiles then 1 else cf1
      (Result.SUCCESS, { stA with currentFile := cf2, lockDepth := stA.lockDepth - 1 })
    else (Result.FAILURE, stL)
  else (Result.FAILURE, stL)

/-- Embedding of `load_historic_hk_data` (lines 359-378).  The filename it opens is
built from the global `current_file` (the `snprintf` at line 368 formats
`current_file`), not from the `file_num` argument, which is unused; the
read fails exactly when that file does not exist (or the filename malloc
failed). -/
def load_historic_hk_data (st : HKState) ( file_num : Nat) (mallocOk : Bool) :
    Result × Option Record :=
  if mallocOk then
    match st.files st.currentFile with
    | some r => (Result.SUCCESS, some r)
    | none => (Result.FAILURE, none)
  else (Result.FAILURE, none)

/-- One iteration of the cleanup loop of `set_max_files` (lines 423-431):
if the file for slot `i` exists it is removed; when `remove` returns 0
(success, hence `!remove(filename)` is true) and `i > new_max`, slot `i` is
logged as orphaned and the loop's result becomes `FAILURE`.  The
accumulator is `(files on disk, result so far, slots logged as orphaned)`. -/
def cleanup_step (removeOk : Nat → Bool) (new_max : Nat)
    (acc : (Nat → Option Record) × Result × List Nat) (i : Nat) :
    (Nat → Option Record) × Result × List Nat :=
  if (acc.1 i).isSome then
    if removeOk i then
      let files2 : Nat → Option Record := fun n => if n = i then none else acc.1 n
      if new_max < i then (files2, Result.FAILURE, acc.2.2 ++ [i])
      else (files2, acc.2.1, acc.2.2)
    else acc
  else acc

/-- Predicate for one cleanup-loop slot: the file exists, `remove` will
succeed on it, and its id exceeds the new maximum — exactly the slots the
loop logs as orphaned. -/
def cleanupHit (fs : Nat → Option Record) (removeOk : Nat → Bool) (new_max : Nat)
    (i : Nat) : Bool :=
  (fs i).isSome && removeOk i && decide (new_max < i)

/-- Embedding of `set_max_files` (lines 393-433).  Rejects `new_max < 1`; under the lock
swaps `MAX_FILES` and resets `current_file` to 1; returns `SUCCESS` early
when the old maximum was strictly smaller than the new one; otherwise runs
the cleanup loop over slots `1 .. old_max`.  The third component of the
result collects the slot ids logged as orphaned. -/
def set_max_files (st : HKState) (new_max : Nat) (env : Env) :
    Result × HKState × List Nat :=
  if new_max < 1 then (Result.FAILURE, st, [])
  else
    let old_max := st.maxFiles
    let st1 : HKState := { st with maxFiles := new_max, currentFile := 1 }
    if old_max < new_max then (Result.SUCCESS, st1, [])
    else if env.fnMallocOk then
      let out := (List.range' 1 old_max).foldl (cleanup_step env.removeOk new_max)
        (st1.files, Result.SUCCESS, [])
      (out.2.1, { st1 with files := out.1 }, out.2.2)
    else (Result.FAILURE, st1, [])

/-- Embedding of `convert_hk_endianness` (lines 444-465): byte-order conversion of the
header fields via `csp_hton32`/`csp_hton16`, and of each subsystem blob via
its external converter (modelled as the corresponding `Env` function). -/
def convert_hk_endianness (env : Env) (r : Record) : Record where
  timestamp := csp_hton32 env.bigEndian r.timestamp
  dataPosition := csp_hton16 env.bigEndian r.dataPosition
  athena := env.athenaConv r.athena
  eps := env.epsConv r.eps
  uhf := env.uhfConv r.uhf
  sband := env.sbandConv r.sband

/-- The paging loop of `fetch_historic_hk_and_transmit` (lines 507-560):
while `limit > 0`, decrement the slot id (`uint16_t` decrement, then
`0 ↦ locked_max`), load (which, through `load_historic_hk_data`, actually
reads the write cursor's file), convert endianness, send; a failed load or
send aborts with `FAILURE`.  The returned list collects the records handed
to `csp_send`, in order. -/
def fetch_loop (st : HKState) (env : Env) (locked_max : Nat) :
    Nat → Nat → List Record → Result × List Record
  | 0, _, acc => (Result.SUCCESS, acc)
  | lim + 1, before_id, acc =>
    let id1 := (before_id + 65535) % 65536
    let id2 := if id1 = 0 then locked_max else id1
    let l := load_historic_hk_data st id2 env.fnMallocOk
    if l.1 = Result.SUCCESS then
      match l.2 with
      | some r =>
        if env.sendOk then
          fetch_loop st env locked_max lim id2 (acc ++ [convert_hk_endianness env r])
        else (Result.FAILURE, acc)
      | none => (Result.FAILURE, acc)
    else (Result.FAILURE, acc)

/-- Embedding of `fetch_historic_hk_and_transmit` (lines 482-563).  A non-zero
`before_time` is resolved through the timestamp search; a resolved id of 0
or above `locked_max` falls back to `current_file`; `limit` is clamped to
`locked_max`, and `limit = 0` is an immediate success with nothing sent. -/
def fetch_historic_hk_and_transmit (st : HKState) (env : Env)
    (limit before_id before_time : Nat) : Result × List Record :=
  let locked_max := st.maxFiles
  let id0 := if before_time ≠ 0 then get_file_id_from_timestamp st before_time else before_id
  let id1 := if id0 = 0 ∨ id0 > locked_max then st.currentFile else id0
  if limit > locked_max then fetch_loop st env locked_max locked_max id1 []
  else if limit = 0 then (Result.SUCCESS, [])
  else fetch_loop st env locked_max limit id1 []

/-- Access to `packet->data16[i]`: the `i`-th 16-bit word of the packet's
payload bytes, combined according to the host byte order (the C type
punning reads two adjacent `uint8_t`s as one host-order `uint16_t`). -/
def data16 (bigEndian : Bool) (data : Nat → Nat) (i : Nat) : Nat :=
  if bigEndian then data (2 * i) % 256 * 256 + data (2 * i + 1) % 256
  else data (2 * i + 1) % 256 * 256 + data (2 * i) % 256

/-- Modelled from the spec: the position constant IN_DATA_BYTE is defined
in a header that is not under `src/`; per the spec's wire table the
sub-service tag is the first payload byte and the request fields follow it,
so the request data begins at byte offset 1. -/
def IN_DATA_BYTE : Nat := 1

/-- The GET_HK argument decoding of `hk_service_app` (lines 620-622):
`limit = (uint16_t)packet->data16[IN_DATA_BYTE]`,
`before_id = (uint16_t)packet->data16[IN_DATA_BYTE + 1]`,
`before_time = (uint32_t)packet->data16[IN_DATA_BYTE + 2]` — three 16-bit
host-order words (the third widened to 32 bits by the cast), with no
network-to-host conversion applied. -/
def hk_app_decode_get_hk (bigEndian : Bool) (data : Nat → Nat) : Nat × Nat × Nat :=
  (data16 bigEndian data IN_DATA_BYTE,
   data16 bigEndian data (IN_DATA_BYTE + 1),
   data16 bigEndian data (IN_DATA_BYTE + 2))

/-- Modelled from the spec: the GET-HISTORY request layout the spec
prescribes — a 2-byte limit, a 2-byte beforeSlotId and a 4-byte
beforeTimestamp, all big-endian, at consecutive byte positions directly
after the 1-byte sub-service tag. -/
def spec_decode_get_hk (data : Nat → Nat) : Nat × Nat × Nat :=
  (data 1 % 256 * 256 + data 2 % 256,
   data 3 % 256 * 256 + data 4 % 256,
   data 5 % 256 * 16777216 + data 6 % 256 * 65536 + data 7 % 256 * 256 + data 8 % 256)

/-- An environment in which every external call succeeds: clock at 100, a
big-endian host (so the `csp_hton` conversions are numeric identities),
identity subsystem converters, concrete telemetry payloads. -/
def envOk : Env where
  now := 100
  athena := 7
  eps := 8
  uhf := 9
  sband := 10
  fnMallocOk := true
  writeOk := true
  arrayOk := true
  sendOk := true
  removeOk := fun _ => true
  bigEndian := true
  athenaConv := id
  epsConv := id
  uhfConv := id
  sbandConv := id

/-- The fresh store of the spec's concrete scenario: capacity 3, nothing
written yet. -/
def stScn : HKState := { initState with maxFiles := 3 }

/-- The spec's concrete scenario state: from a fresh capacity-3 store,
four successful writes stamped 100, 130, 160, 190. -/
def st4 : HKState :=
  (populate_and_store_hk_data
    ((populate_and_store_hk_data
      ((populate_and_store_hk_data
        ((populate_and_store_hk_data stScn envOk).2)
        { envOk with now := 130 }).2)
      { envOk with now := 160 }).2)
    { envOk with now := 190 }).2

/-- Environment whose persistent file write (`fopen` in
`write_hk_to_file`) fails. -/
def envWriteFail : Env := { envOk with writeOk := false }

/-- Uninitialised memory around the timestamp allocation: the cells the
array does not own hold arbitrary garbage (999 just below the array, 90 far
past its end). -/
def memGarbage : Int → Nat :=
  fun i => if i = -1 then 999 else if i = 65534 then 90 else 0

/-- Fresh capacity-3 store whose heap happens to hold the `memGarbage`
contents where the timestamp array will be placed. -/
def stPre : HKState := { initState with maxFiles := 3, tsMem := memGarbage }

/-- Not-yet-wrapped store: two successful writes (stamped 100 and 130) into
the fresh capacity-3 store, leaving `current_file = 3` and slot 3 empty. -/
def stNW : HKState :=
  (populate_and_store_hk_data
    ((populate_and_store_hk_data stPre envOk).2) { envOk with now := 130 }).2

/-- Two records persisted in a capacity-2 store, used to exercise the
resize cleanup. -/
def recA : Record := { timestamp := 100, dataPosition := 1, athena := 0, eps := 0, uhf := 0, sband := 0 }

/-- Second record for the capacity-2 resize scenario. -/
def recB : Record := { timestamp := 130, dataPosition := 2, athena := 0, eps := 0, uhf := 0, sband := 0 }

/-- Capacity-2 store holding records in slots 1 and 2. -/
def stC2 : HKState :=
  { initState with
    maxFiles := 2
    files := fun n => if n = 1 then some recA else if n = 2 then some recB else none }

/-- A store whose timestamp index currently holds 5 entries
(`hk_timestamp_array_size = 5`), about to be resized to capacity 3. -/
def stC8 : HKState :=
  { initState with maxFiles := 5, currentFile := 3, tsNull := false, tsSize := 5 }

/-- A GET-HISTORY request payload: tag byte, then (per the spec's wire
layout) big-endian limit 1, beforeSlotId 2, beforeTimestamp 65536. -/
def getHkPacket : Nat → Nat :=
  fun i => List.getD [17, 0, 1, 0, 2, 0, 1, 0, 0] i 0

/-- Claim C1: immediately after a successful write that landed in slot 1,
loading slot 1 is claimed to return the record persisted under slot 1; in
the code `load_historic_hk_data` names its file after the advanced write
cursor (`current_file = 2`), whose file does not exist, so the load fails
instead of returning the slot-1 record (and no timestamp-sentinel NotFound
check exists anywhere on the load path). -/
theorem hk_load_uses_write_cursor :
    (populate_and_store_hk_data initState envOk).1 = Result.SUCCESS ∧
    (populate_and_store_hk_data initState envOk).2.files 1 =
      some { timestamp := 100, dataPosition := 1, athena := 7, eps := 8, uhf := 9, sband := 10 } ∧
    (populate_and_store_hk_data initState envOk).2.currentFile = 2 ∧
    (load_historic_hk_data (populate_and_store_hk_data initState envOk).2 1 true).1 =
      Result.FAILURE := by
  decide

/-- Claim C3: with capacity 3 and writes stamped 100, 130, 160, 190 (so
slot 2 stores timestamp 130 and the store has wrapped with cursor 2), the
claim says `findNearest(130)` returns slot 2 (an exact stored timestamp);
the code's search, whose logical-to-physical mapping lacks the circular
modulo, returns 0. -/
theorem hk_find_nearest_misses_exact_match :
    st4.currentFile = 2 ∧ st4.tsSize = 3 ∧
    st4.tsMem 1 = 190 ∧ st4.tsMem 2 = 130 ∧ st4.tsMem 3 = 160 ∧
    get_file_id_from_timestamp st4 130 = 0 := by
  decide

/-- Claim C4: in the spec's concrete scenario `findNearest(165)` does
return slot 3 as claimed, but `fetchPage(limit=3, beforeSlotId=0,
beforeTimestamp=0)` emits the record of slot 2 (timestamp 130) three times
— every load reads the write cursor's file — instead of the claimed
slot 1 (190), slot 3 (160), slot 2 (130). -/
theorem hk_scenario_fetch_emits_cursor_record :
    get_file_id_from_timestamp st4 165 = 3 ∧
    (fetch_historic_hk_and_transmit st4 envOk 3 0 0).1 = Result.SUCCESS ∧
    (fetch_historic_hk_and_transmit st4 envOk 3 0 0).2.map Record.timestamp =
      [130, 130, 130] ∧
    (fetch_historic_hk_and_transmit st4 envOk 3 0 0).2.map Record.dataPosition =
      [2, 2, 2] := by
  decide

/-- Claim C6: for the GET-HISTORY payload carrying (per the spec's wire
format) limit 1, beforeSlotId 2, beforeTimestamp 65536, the dispatcher's
decoding — three unconverted host-order 16-bit words — cannot produce the
claimed 4-byte big-endian beforeTimestamp on either host byte order, and in
general the decoded beforeTimestamp is always below 2^16. -/
theorem hk_get_history_decode_truncates_timestamp :
    spec_decode_get_hk getHkPacket = (1, 2, 65536) ∧
    (hk_app_decode_get_hk true getHkPacket).2.2 = 256 ∧
    (hk_app_decode_get_hk false getHkPacket).2.2 = 1 ∧
    (∀ bigEndian data, (hk_app_decode_get_hk bigEndian data).2.2 < 65536) := by
  refine ⟨by decide, by decide, by decide, ?_⟩
  intro bigEndian data
  unfold hk_app_decode_get_hk data16
  cases bigEndian <;> simp <;>
    · have h1 := Nat.mod_lt (data (2 * (IN_DATA_BYTE + 2))) (show 0 < 256 by decide)
      have h2 := Nat.mod_lt (data (2 * (IN_DATA_BYTE + 2) + 1)) (show 0 < 256 by decide)
      omega

/-- Claim C9: when the persistent write fails, `populate_and_store_hk_data`
returns `FAILURE` while still holding the store mutex (no
`xSemaphoreGive` on that return path), contradicting the claim that the
lock is released on every return. -/
theorem hk_write_failure_keeps_lock_held :
    initState.lockDepth = 0 ∧
    (populate_and_store_hk_data initState envWriteFail).1 = Result.FAILURE ∧
    (populate_and_store_hk_data initState envWriteFail).2.lockDepth = 1 := by
  decide

/-- Claim C10: in the not-yet-wrapped state reached by two writes into a
capacity-3 store (`current_file = 3`), the search subscripts `timestamps`
at index `-1` (the mapping `middle - (current_file - 1)` underflows), and —
with the unowned memory cells holding `memGarbage` — returns 65534, which
is neither 0 nor a slot id in `[1, capacity]`. -/
theorem hk_search_reads_outside_valid_range :
    stNW.currentFile = 3 ∧ stNW.maxFiles = 3 ∧
    stNW.tsMem 1 = 100 ∧ stNW.tsMem 2 = 130 ∧ stNW.tsMem 3 = 0 ∧
    (-1 : Int) ∈ (get_file_id_with_reads stNW 100).2 ∧
    (get_file_id_with_reads stNW 100).1 = 65534 := by
  decide

/-- Claim C5: when the persistence step fails, the write returns `FAILURE`
and leaves the store state unchanged — cursor not advanced, timestamp index
(pointer, memory and size) untouched, no file modified. -/
theorem hk_write_failure_leaves_state_unchanged (st : HKState) (env : Env)
    (h : env.writeOk = false) :
    (populate_and_store_hk_data st env).1 = Result.FAILURE ∧
    (populate_and_store_hk_data st env).2.currentFile = st.currentFile ∧
    (populate_and_store_hk_data st env).2.tsNull = st.tsNull ∧
    (populate_and_store_hk_data st env).2.tsMem = st.tsMem ∧
    (populate_and_store_hk_data st env).2.tsSize = st.tsSize ∧
    (populate_and_store_hk_data st env).2.files = st.files := by
  unfold populate_and_store_hk_data
  cases hm : env.fnMallocOk <;> simp [h, hm]

/-- Witness for C5 at a concrete input: the fresh store and an environment
whose file write fails. -/
theorem hk_write_failure_leaves_state_unchanged_witness :
    envWriteFail.writeOk = false ∧
    ((populate_and_store_hk_data initState envWriteFail).1 = Result.FAILURE ∧
     (populate_and_store_hk_data initState envWriteFail).2.currentFile =
       initState.currentFile ∧
     (populate_and_store_hk_data initState envWriteFail).2.tsNull = initState.tsNull ∧
     (populate_and_store_hk_data initState envWriteFail).2.tsMem = initState.tsMem ∧
     (populate_and_store_hk_data initState envWriteFail).2.tsSize = initState.tsSize ∧
     (populate_and_store_hk_data initState envWriteFail).2.files = initState.files) :=
  ⟨rfl, hk_write_failure_leaves_state_unchanged initState envWriteFail rfl⟩

/-- When the write cursor's file exists and malloc/send succeed, every pass
of the paging loop emits one converted copy of that file's record: the loop
never fails and sends exactly its iteration count. -/
theorem fetch_loop_all_success (st : HKState) (env : Env) (locked_max : Nat) (r : Record)
    (hr : st.files st.currentFile = some r) (hm : env.fnMallocOk = true)
    (hs : env.sendOk = true) :
    ∀ (lim id : Nat) (acc : List Record),
      fetch_loop st env locked_max lim id acc =
        (Result.SUCCESS, acc ++ List.replicate lim (convert_hk_endianness env r)) := by
  intro lim
  induction lim with
  | zero => intro id acc; simp [fetch_loop]
  | succ n ih =>
    intro id acc
    simp only [fetch_loop, load_historic_hk_data, hm, hr, hs, if_true]
    rw [ih]
    simp [List.replicate_succ]

/-- When the write cursor's file exists and malloc/send succeed, the page
request succeeds and emits `min limit capacity` records (the record loaded
is always the cursor's, per `load_historic_hk_data`). -/
theorem fetch_all_success (st : HKState) (env : Env)
    (limit before_id before_time : Nat) (r : Record)
    (hr : st.files st.currentFile = some r) (hm : env.fnMallocOk = true)
    (hs : env.sendOk = true) :
    fetch_historic_hk_and_transmit st env limit before_id before_time =
      (Result.SUCCESS,
       List.replicate (min limit st.maxFiles) (convert_hk_endianness env r)) := by
  unfold fetch_historic_hk_and_transmit
  by_cases hgt : limit > st.maxFiles
  · rw [if_pos hgt, fetch_loop_all_success st env st.maxFiles r hr hm hs]
    have : min limit st.maxFiles = st.maxFiles := by omega
    rw [this]
    simp
  · by_cases h0 : limit = 0
    · subst h0
      simp
    · rw [if_neg hgt, if_neg h0, fetch_loop_all_success st env st.maxFiles r hr hm hs]
      have : min limit st.maxFiles = limit := by omega
      rw [this]
      simp

/-- Claim C7: for every store state, `fetchPage` with `limit = 0` succeeds
and emits nothing; and whenever the loads succeed (cursor file present,
malloc and send ok), the page succeeds and emits exactly
`min limit capacity` records — in particular a limit above capacity is
clamped to exactly capacity emissions. -/
theorem hk_fetch_limit_clamp :
    (∀ (st : HKState) (env : Env) (before_id before_time : Nat),
       fetch_historic_hk_and_transmit st env 0 before_id before_time =
         (Result.SUCCESS, [])) ∧
    (∀ (st : HKState) (env : Env) (limit before_id before_time : Nat) (r : Record),
       st.files st.currentFile = some r → env.fnMallocOk = true → env.sendOk = true →
       (fetch_historic_hk_and_transmit st env limit before_id before_time).1 =
         Result.SUCCESS ∧
       (fetch_historic_hk_and_transmit st env limit before_id before_time).2.length =
         min limit st.maxFiles) := by
  constructor
  · intro st env bid bt
    unfold fetch_historic_hk_and_transmit
    simp
  · intro st env limit bid bt r hr hm hs
    rw [fetch_all_success st env limit bid bt r hr hm hs]
    simp

/-- Witness for C7 at concrete inputs: the scenario store `st4` (cursor
file present), with limit 0 and with limit 5 above the capacity 3. -/
theorem hk_fetch_limit_clamp_witness :
    fetch_historic_hk_and_transmit st4 envOk 0 0 0 = (Result.SUCCESS, []) ∧
    ((fetch_historic_hk_and_transmit st4 envOk 5 0 0).1 = Result.SUCCESS ∧
     (fetch_historic_hk_and_transmit st4 envOk 5 0 0).2.length = min 5 st4.maxFiles) :=
  ⟨hk_fetch_limit_clamp.1 st4 envOk 0 0,
   hk_fetch_limit_clamp.2 st4 envOk 5 0 0
     { timestamp := 130, dataPosition := 2, athena := 7, eps := 8, uhf := 9, sband := 10 }
     (by decide) rfl rfl⟩

/-- Predicate congruence for `List.any`. -/
theorem any_congr_on {l : List Nat} {p q : Nat → Bool}
    (h : ∀ x ∈ l, p x = q x) : l.any p = l.any q := by
  induction l with
  | nil => rfl
  | cons x t ih =>
    simp only [List.any_cons, h x (List.mem_cons_self x t),
      ih fun y hy => h y (List.mem_cons_of_mem x hy)]

/-- The deleting step of the cleanup loop, as an equation: when slot `a`'s
file exists and `remove` succeeds, the step removes it and, iff
`new_max < a`, flips the result and logs the orphan. -/
theorem cleanup_step_hit (rk : Nat → Bool) (nm a : Nat) (fs : Nat → Option Record)
    (res : Result) (orp : List Nat) (hA : (fs a).isSome = true) (hR : rk a = true) :
    cleanup_step rk nm (fs, res, orp) a =
      ((fun n0 => if n0 = a then none else fs n0),
       (if nm < a then Result.FAILURE else res),
       (if nm < a then orp ++ [a] else orp)) := by
  by_cases hN : nm < a <;> simp [cleanup_step, hA, hR, hN]

/-- The skipping step of the cleanup loop: a missing file or a failing
`remove` leaves the accumulator unchanged. -/
theorem cleanup_step_skip (rk : Nat → Bool) (nm a : Nat) (fs : Nat → Option Record)
    (res : Result) (orp : List Nat) (h : (fs a).isSome = false ∨ rk a = false) :
    cleanup_step rk nm (fs, res, orp) a = (fs, res, orp) := by
  rcases h with h | h <;> simp [cleanup_step, h]

/-- Files after the cleanup loop over slots `a .. a + n - 1`: slot `s` is
deleted exactly when it lies in the range, its file existed, and its
`remove` succeeds. -/
theorem cleanup_files_eq (rk : Nat → Bool) (nm : Nat) :
    ∀ (n a : Nat) (fs : Nat → Option Record) (res : Result) (orp : List Nat) (s : Nat),
      ((List.range' a n).foldl (cleanup_step rk nm) (fs, res, orp)).1 s =
        if a ≤ s ∧ s < a + n ∧ (fs s).isSome = true ∧ rk s = true then none
        else fs s := by
  intro n
  induction n with
  | zero =>
    intro a fs res orp s
    rw [show List.range' a 0 = [] from rfl, List.foldl_nil, if_neg]
    rintro ⟨h1, h2, -⟩
    omega
  | succ k ih =>
    intro a fs res orp s
    rw [List.range'_succ, List.foldl_cons]
    by_cases hA : (fs a).isSome = true
    · by_cases hR : rk a = true
      · rw [cleanup_step_hit rk nm a fs res orp hA hR, ih (a + 1)]
        by_cases hsa : s = a
        · subst hsa
          rw [if_neg (fun hc => by omega)]
          rw [if_pos (show s ≤ s ∧ s < s + (k + 1) ∧ (fs s).isSome = true ∧ rk s = true
            from ⟨Nat.le_refl s, by omega, hA, hR⟩)]
          simp
        · have hiff : (a + 1 ≤ s ∧ s < a + 1 + k ∧
              (if s = a then (none : Option Record) else fs s).isSome = true ∧
              rk s = true) ↔
              (a ≤ s ∧ s < a + (k + 1) ∧ (fs s).isSome = true ∧ rk s = true) := by
            rw [if_neg hsa]
            constructor
            · rintro ⟨u1, u2, u3, u4⟩
              exact ⟨by omega, by omega, u3, u4⟩
            · rintro ⟨u1, u2, u3, u4⟩
              exact ⟨by omega, by omega, u3, u4⟩
          exact if_congr hiff rfl (if_neg hsa)
      · rw [cleanup_step_skip rk nm a fs res orp (Or.inr (by simpa using hR)),
          ih (a + 1)]
        by_cases hsa : s = a
        · subst hsa
          rw [if_neg (fun hc => by omega), if_neg (fun hc => hR hc.2.2.2)]
        · have hiff : (a + 1 ≤ s ∧ s < a + 1 + k ∧ (fs s).isSome = true ∧ rk s = true) ↔
              (a ≤ s ∧ s < a + (k + 1) ∧ (fs s).isSome = true ∧ rk s = true) := by
            constructor
            · rintro ⟨u1, u2, u3, u4⟩
              exact ⟨by omega, by omega, u3, u4⟩
            · rintro ⟨u1, u2, u3, u4⟩
              exact ⟨by omega, by omega, u3, u4⟩
          exact if_congr hiff rfl rfl
    · rw [cleanup_step_skip rk nm a fs res orp (Or.inl (by simpa using hA)),
        ih (a + 1)]
      by_cases hsa : s = a
      · subst hsa
        rw [if_neg (fun hc => by omega), if_neg (fun hc => hA hc.2.2.1)]
      · have hiff : (a + 1 ≤ s ∧ s < a + 1 + k ∧ (fs s).isSome = true ∧ rk s = true) ↔
            (a ≤ s ∧ s < a + (k + 1) ∧ (fs s).isSome = true ∧ rk s = true) := by
          constructor
          · rintro ⟨u1, u2, u3, u4⟩
            exact ⟨by omega, by omega, u3, u4⟩
          · rintro ⟨u1, u2, u3, u4⟩
            exact ⟨by omega, by omega, u3, u4⟩
        exact if_congr hiff rfl rfl

/-- The predicate `cleanupHit` is insensitive to changing the files function at a point
outside the inspected slot. -/
theorem cleanupHit_update_ne (fs : Nat → Option Record) (rk : Nat → Bool)
    (nm a x : Nat) (hx : x ≠ a) :
    cleanupHit (fun n0 => if n0 = a then none else fs n0) rk nm x =
      cleanupHit fs rk nm x := by
  simp [cleanupHit, hx]

/-- Result after the cleanup loop: `FAILURE` exactly when some slot in the
range is an orphan hit (or the loop started with `FAILURE`). -/
theorem cleanup_result_eq (rk : Nat → Bool) (nm : Nat) :
    ∀ (n a : Nat) (fs : Nat → Option Record) (res : Result) (orp : List Nat),
      ((List.range' a n).foldl (cleanup_step rk nm) (fs, res, orp)).2.1 =
        if (List.range' a n).any (cleanupHit fs rk nm) = true then Result.FAILURE
        else res := by
  intro n
  induction n with
  | zero =>
    intro a fs res orp
    rw [show List.range' a 0 = [] from rfl, List.foldl_nil]
    simp
  | succ k ih =>
    intro a fs res orp
    rw [List.range'_succ, List.foldl_cons]
    have hmemne : ∀ x ∈ List.range' (a + 1) k, x ≠ a := by
      intro x hx
      have := List.mem_range'_1.mp hx
      omega
    by_cases hA : (fs a).isSome = true
    · by_cases hR : rk a = true
      · rw [cleanup_step_hit rk nm a fs res orp hA hR, ih (a + 1),
          any_congr_on (fun x hx => cleanupHit_update_ne fs rk nm a x (hmemne x hx)),
          List.any_cons]
        have hhita : cleanupHit fs rk nm a = decide (nm < a) := by
          simp [cleanupHit, hA, hR]
        rw [hhita]
        by_cases hN : nm < a
        · rw [if_pos hN, ite_self, decide_eq_true hN, Bool.true_or, if_pos rfl]
        · rw [if_neg hN, decide_eq_false hN, Bool.false_or]
      · have hR2 : rk a = false := by simpa using hR
        rw [cleanup_step_skip rk nm a fs res orp (Or.inr hR2),
          ih (a + 1), List.any_cons]
        have hhita : cleanupHit fs rk nm a = false := by
          simp [cleanupHit, hR2]
        rw [hhita, Bool.false_or]
    · have hA2 : (fs a).isSome = false := by simpa using hA
      rw [cleanup_step_skip rk nm a fs res orp (Or.inl hA2),
        ih (a + 1), List.any_cons]
      have hhita : cleanupHit fs rk nm a = false := by
        simp [cleanupHit, hA2]
      rw [hhita, Bool.false_or]

/-- Orphan log after the cleanup loop: exactly the slots in the range whose
file existed, whose `remove` succeeds, and whose id exceeds `new_max`, in
ascending order appended to the incoming log. -/
theorem cleanup_orphans_eq (rk : Nat → Bool) (nm : Nat) :
    ∀ (n a : Nat) (fs : Nat → Option Record) (res : Result) (orp : List Nat),
      ((List.range' a n).foldl (cleanup_step rk nm) (fs, res, orp)).2.2 =
        orp ++ (List.range' a n).filter (cleanupHit fs rk nm) := by
  intro n
  induction n with
  | zero =>
    intro a fs res orp
    rw [show List.range' a 0 = [] from rfl, List.foldl_nil]
    simp
  | succ k ih =>
    intro a fs res orp
    rw [List.range'_succ, List.foldl_cons]
    have hmemne : ∀ x ∈ List.range' (a + 1) k, x ≠ a := by
      intro x hx
      have := List.mem_range'_1.mp hx
      omega
    by_cases hA : (fs a).isSome = true
    · by_cases hR : rk a = true
      · rw [cleanup_step_hit rk nm a fs res orp hA hR, ih (a + 1),
          List.filter_congr
            (fun x hx => cleanupHit_update_ne fs rk nm a x (hmemne x hx)),
          List.filter_cons]
        have hhita : cleanupHit fs rk nm a = decide (nm < a) := by
          simp [cleanupHit, hA, hR]
        rw [hhita]
        by_cases hN : nm < a
        · rw [if_pos hN, if_pos (decide_eq_true hN), List.append_assoc,
            List.singleton_append]
        · rw [if_neg hN, if_neg (by simp [hN])]
      · have hR2 : rk a = false := by simpa using hR
        rw [cleanup_step_skip rk nm a fs res orp (Or.inr hR2),
          ih (a + 1), List.filter_cons]
        have hhita : cleanupHit fs rk nm a = false := by
          simp [cleanupHit, hR2]
        rw [hhita, if_neg (by simp)]
    · have hA2 : (fs a).isSome = false := by simpa using hA
      rw [cleanup_step_skip rk nm a fs res orp (Or.inl hA2),
        ih (a + 1), List.filter_cons]
      have hhita : cleanupHit fs rk nm a = false := by
        simp [cleanupHit, hA2]
      rw [hhita, if_neg (by simp)]

/-- Claim C2 counterexample: shrinking a capacity-2 store to capacity 1
deletes slot 1 as well — even though slot 1 does not lie in
`(newCapacity, oldCapacity] = {2}` — and reports slot 2 as an orphan even
though its file was successfully removed (it no longer exists), making the
overall result `FAILURE`. -/
theorem hk_resize_deletes_all_slots_counterexample :
    stC2.maxFiles = 2 ∧ stC2.files 1 = some recA ∧
    (set_max_files stC2 1 envOk).2.1.files 1 = none ∧
    (set_max_files stC2 1 envOk).2.1.files 2 = none ∧
    (set_max_files stC2 1 envOk).2.2 = [2] ∧
    (set_max_files stC2 1 envOk).1 = Result.FAILURE := by
  decide

/-- Claim C2 as amended: for `newCapacity ≥ 1` the cursor is reset to 1 and
the capacity swapped; when `oldCapacity < newCapacity` nothing is deleted
and the result is `SUCCESS`; when `newCapacity ≤ oldCapacity` (equality
included) the cleanup deletes every slot in `[1, oldCapacity]` whose file
exists and whose `remove` succeeds, logs as orphaned exactly the deleted
slots with id above `newCapacity`, and returns `FAILURE` iff some slot was
so logged. -/
theorem hk_set_max_files_characterization (st : HKState) (new_max : Nat) (env : Env)
    (h1 : 1 ≤ new_max) :
    ((set_max_files st new_max env).2.1.currentFile = 1 ∧
     (set_max_files st new_max env).2.1.maxFiles = new_max) ∧
    (st.maxFiles < new_max →
      set_max_files st new_max env =
        (Result.SUCCESS, { st with maxFiles := new_max, currentFile := 1 }, [])) ∧
    (new_max ≤ st.maxFiles → env.fnMallocOk = true →
      (∀ s, (set_max_files st new_max env).2.1.files s =
        if 1 ≤ s ∧ s < 1 + st.maxFiles ∧ (st.files s).isSome = true ∧
            env.removeOk s = true
        then none else st.files s) ∧
      (set_max_files st new_max env).2.2 =
        (List.range' 1 st.maxFiles).filter (cleanupHit st.files env.removeOk new_max) ∧
      (set_max_files st new_max env).1 =
        (if (List.range' 1 st.maxFiles).any (cleanupHit st.files env.removeOk new_max) =
            true
         then Result.FAILURE else Result.SUCCESS)) := by
  have hnot : ¬ new_max < 1 := by omega
  unfold set_max_files
  by_cases hlt : st.maxFiles < new_max
  · rw [if_neg hnot, if_pos hlt]
    exact ⟨⟨rfl, rfl⟩, fun _ => rfl, fun hcon _ => absurd hlt (by omega)⟩
  · rw [if_neg hnot, if_neg hlt]
    by_cases hm : env.fnMallocOk = true
    · rw [if_pos hm]
      refine ⟨⟨rfl, rfl⟩, fun hcon => absurd hcon hlt, fun _ _ => ?_⟩
      dsimp only
      refine ⟨?_, ?_, ?_⟩
      · intro s
        rw [cleanup_files_eq]
      · rw [cleanup_orphans_eq]
        simp
      · rw [cleanup_result_eq]
    · rw [if_neg hm]
      exact ⟨⟨rfl, rfl⟩, fun hcon => absurd hcon hlt,
        fun _ hcon => absurd hcon hm⟩

/-- Witness for the amended C2 at a concrete input: the capacity-2 store
shrunk to capacity 1. -/
theorem hk_set_max_files_characterization_witness :
    ((set_max_files stC2 1 envOk).2.1.currentFile = 1 ∧
     (set_max_files stC2 1 envOk).2.1.maxFiles = 1) ∧
    (set_max_files stC2 1 envOk).2.2 =
      (List.range' 1 stC2.maxFiles).filter (cleanupHit stC2.files envOk.removeOk 1) :=
  ⟨(hk_set_max_files_characterization stC2 1 envOk (by decide)).1,
   ((hk_set_max_files_characterization stC2 1 envOk (by decide)).2.2 (by decide)
     rfl).2.1⟩

/-- Running `dynamic_timestamp_array_handler` with a succeeding realloc always
leaves the array sized to its argument. -/
theorem handler_sets_size (st : HKState) (n : Nat) :
    (dynamic_timestamp_array_handler st true n).2.tsSize = n := by
  unfold dynamic_timestamp_array_handler
  by_cases h0 : n = 0
  · simp [h0]
  · rw [if_neg h0]
    by_cases hne : n ≠ st.tsSize
    · rw [if_pos hne]
      simp
    · rw [if_neg hne]
      simpa using (not_not.mp hne).symm

/-- Claim C8 counterexample: resizing a store whose timestamp index holds 5
entries down to capacity 3 succeeds but leaves the index size at 5 — the
resize itself performs no reallocation of the timestamp array, contrary to
the claim that every successful resize reallocates it to `newCapacity + 1`
entries. -/
theorem hk_resize_leaves_index_size_counterexample :
    stC8.tsSize = 5 ∧
    (set_max_files stC8 3 envOk).1 = Result.SUCCESS ∧
    (set_max_files stC8 3 envOk).2.1.tsSize = 5 ∧
    ((set_max_files stC8 3 envOk).2.1.tsSize = 3 → False) := by
  decide

/-- Claim C8 as amended: `resize` rejects `newCapacity < 1` with `FAILURE`
and no state change; a resize never touches the timestamp index (size,
memory or pointer); the index is instead brought to hold
`capacity + 1` entries (size `capacity`) by the next successful write's
`dynamic_timestamp_array_handler(MAX_FILES)` call. -/
theorem hk_resize_index_reallocation_facts :
    (∀ (st : HKState) (env : Env) (new_max : Nat), new_max < 1 →
       set_max_files st new_max env = (Result.FAILURE, st, [])) ∧
    (∀ (st : HKState) (new_max : Nat) (env : Env),
       (set_max_files st new_max env).2.1.tsSize = st.tsSize ∧
       (set_max_files st new_max env).2.1.tsMem = st.tsMem ∧
       (set_max_files st new_max env).2.1.tsNull = st.tsNull) ∧
    (∀ (st : HKState) (env : Env),
       env.fnMallocOk = true → env.writeOk = true → env.arrayOk = true →
       (populate_and_store_hk_data st env).2.tsSize = st.maxFiles) := by
  refine ⟨?_, ?_, ?_⟩
  · intro st env new_max h
    unfold set_max_files
    rw [if_pos h]
  · intro st new_max env
    unfold set_max_files
    by_cases h0 : new_max < 1
    · rw [if_pos h0]
      exact ⟨rfl, rfl, rfl⟩
    · rw [if_neg h0]
      by_cases hlt : st.maxFiles < new_max
      · rw [if_pos hlt]
        exact ⟨rfl, rfl, rfl⟩
      · rw [if_neg hlt]
        by_cases hm : env.fnMallocOk = true
        · rw [if_pos hm]
          exact ⟨rfl, rfl, rfl⟩
        · rw [if_neg hm]
          exact ⟨rfl, rfl, rfl⟩
  · intro st env h1 h2 h3
    unfold populate_and_store_hk_data
    rw [if_pos h1, if_pos h2, h3]
    dsimp only
    split <;> simp [handler_sets_size]

/-- Witness for the amended C8 at concrete inputs: capacity-0 rejection on
the fresh store, index preservation for the 5-entry store resized to 3, and
index reallocation by a successful write on the fresh store. -/
theorem hk_resize_index_reallocation_facts_witness :
    set_max_files initState 0 envOk = (Result.FAILURE, initState, []) ∧
    (set_max_files stC8 3 envOk).2.1.tsSize = stC8.tsSize ∧
    (populate_and_store_hk_data initState envOk).2.tsSize = initState.maxFiles :=
  ⟨hk_resize_index_reallocation_facts.1 initState envOk 0 (by decide),
   (hk_resize_index_reallocation_facts.2.1 stC8 3 envOk).1,
   hk_resize_index_reallocation_facts.2.2 initState envOk rfl rfl rfl⟩

end HKService
